import Mathlib

/-
Verification of the KuiX orchestration engine.

Shallow embedding of the code of this repository:
  - kuix/core/exceptions chain model (bkp/kuix/core/exception.py, GenericException)
  - lifecycle state machine (bkp/kuix/core/stateful.py, Stateful and its decorators)
  - worker / kuix component composite operations (kuix/worker_components/base_worker_component.py)
  - the SharedHub mailbox store (kuix/core/ipc.py, SharedHub)
  - the remote capability forwarder (kuix/core/ipc.py, API._raw_remote_call)
  - the host worker registry and kill_worker (bkp/kuix/core/kx_process.py)

Python dicts are embedded as association lists over String keys; insertion
updates the first binding in place or appends at the end, exactly like a
Python dict preserves insertion order.  dict.pop is embedded as a filter
removing the key, which coincides with pop under the key-uniqueness that
every Python dict enjoys.
-/

set_option synthInstance.maxSize 1024

namespace KuiX

/-! Association-list embedding of Python dict. -/

/-- d[k] lookup returning the first binding of k, none when the key is absent. -/
def dictLookup {β : Type} : List (String × β) → String → Option β
  | [], _ => none
  | (k, v) :: rest, key => if k = key then some v else dictLookup rest key

/-- d[k] = v assignment: replaces the first binding of k, appends when absent. -/
def dictInsert {β : Type} : List (String × β) → String → β → List (String × β)
  | [], key, v => [(key, v)]
  | (k, w) :: rest, key, v =>
      if k = key then (k, v) :: rest else (k, w) :: dictInsert rest key v

/-- k in d membership test. -/
def dictContains {β : Type} (d : List (String × β)) (key : String) : Bool :=
  (dictLookup d key).isSome

/-- d.pop(k): removes the binding of k (all of them; Python dicts have unique keys). -/
def dictErase {β : Type} : List (String × β) → String → List (String × β)
  | [], _ => []
  | (k, v) :: rest, key =>
      if k = key then dictErase rest key else (k, v) :: dictErase rest key

/-! Embedding of GenericException (bkp/kuix/core/exception.py).
Traceback frames are not representable; a dumped entry keeps the
(type name, base message) pair of each exception of the chain. -/

/-- GenericException: base_msg plus the dumped cause chain (tracebacks),
context strings (ctx) and the memo of the initial cause.  The field kind
stands for the Python class name of the exception object. -/
structure GenericException where
  kind : String
  base_msg : String
  tracebacks : List (String × String)
  ctx : List String
  initial_type : Option String
  initial_msg : Option String
deriving DecidableEq

/-- A freshly constructed exception: empty chain, empty context. -/
def GenericException.new (kind msg : String) : GenericException :=
  { kind := kind, base_msg := msg, tracebacks := [], ctx := [],
    initial_type := none, initial_msg := none }

/-- dump_exception: the (type, base_msg) entry of e followed by its stored chain. -/
def dumpException (e : GenericException) : List (String × String) :=
  (e.kind, e.base_msg) :: e.tracebacks

/-- GenericException.__add__: stores the dump of the cause and memoizes the
initial type and message when not already set. -/
def geAdd (e c : GenericException) : GenericException :=
  { e with tracebacks := dumpException c,
           initial_type := match e.initial_type with
                           | none => some c.kind
                           | some t => some t,
           initial_msg := match e.initial_msg with
                          | none => some c.base_msg
                          | some m => some m }

/-- GenericException.add_ctx: appends one context line. -/
def GenericException.add_ctx (e : GenericException) (c : String) : GenericException :=
  { e with ctx := e.ctx ++ [c] }

/-- Projection: the initial_type of the error of a failed computation. -/
def initialTypeOf {α : Type} : Except GenericException α → Option String
  | Except.error e => e.initial_type
  | Except.ok _ => none

/-- Projection: the kind (Python class name) of the error of a failed computation. -/
def errKindOf {α : Type} : Except GenericException α → Option String
  | Except.error e => some e.kind
  | Except.ok _ => none

/-! Embedding of the Stateful lifecycle machine (bkp/kuix/core/stateful.py). -/

/-- The three state flags of a Stateful object. -/
structure Stateful where
  OPENED : Bool
  RUNNING : Bool
  CLOSED : Bool
deriving DecidableEq

/-- Stateful.__init__: all flags false. -/
def Stateful.initState : Stateful := ⟨false, false, false⟩

/-- Canonical flag encoding of the INIT state. -/
def stateINIT : Stateful := ⟨false, false, false⟩

/-- Canonical flag encoding of the OPENED state (reached by open). -/
def stateOPENED : Stateful := ⟨true, false, false⟩

/-- Canonical flag encoding of the RUNNING state (reached by open then start). -/
def stateRUNNING : Stateful := ⟨true, true, false⟩

/-- Canonical flag encoding of the CLOSED state (reached by open then close):
close requires OPENED and not RUNNING, and only sets CLOSED, so OPENED stays true. -/
def stateCLOSED : Stateful := ⟨true, false, true⟩

def STATEFUL_ALREADY_OPENED (pfx : String) : String :=
  pfx ++ ": state error, already opened, open method can only be called once."

def STATEFUL_NOT_OPENED (pfx : String) : String :=
  pfx ++ ": state error, open method must be called before calling this method."

def STATEFUL_ALREADY_RUNNING (pfx : String) : String :=
  pfx ++ ": state error, already running, call stop before calling this method."

def STATEFUL_NOT_RUNNING (pfx : String) : String :=
  pfx ++ ": state error, not running, call start before calling this method."

def STATEFUL_ALREADY_CLOSED (pfx : String) : String :=
  pfx ++ ": state error, already closed, close method can only be called once and no method can be called after it."

def STATE_ERROR (pfx : String) : String :=
  pfx ++ ": state error, look at the initial exception for more details."

/-- The exception raised by a failing guard:
StateError(STATE_ERROR) + SubError(message), so the StateError carries the
specific sub error as its initial cause. -/
def stateErrorWith (pfx sub msg : String) : GenericException :=
  geAdd (GenericException.new "StateError" (STATE_ERROR pfx)) (GenericException.new sub msg)

/-- Stateful.require_not_opened: fails when OPENED. -/
def require_not_opened_chk (s : Stateful) (pfx : String) : Option GenericException :=
  if s.OPENED then
    some (stateErrorWith pfx "StatefulAlreadyOpenedError" (STATEFUL_ALREADY_OPENED pfx))
  else none

/-- Stateful.require_opened: fails when not OPENED. -/
def require_opened_chk (s : Stateful) (pfx : String) : Option GenericException :=
  if !s.OPENED then
    some (stateErrorWith pfx "StatefulNotOpenedError" (STATEFUL_NOT_OPENED pfx))
  else none

/-- Stateful.require_running: fails when not RUNNING. -/
def require_running_chk (s : Stateful) (pfx : String) : Option GenericException :=
  if !s.RUNNING then
    some (stateErrorWith pfx "StatefulNotRunningError" (STATEFUL_NOT_RUNNING pfx))
  else none

/-- Stateful.require_not_running: fails when RUNNING. -/
def require_not_running_chk (s : Stateful) (pfx : String) : Option GenericException :=
  if s.RUNNING then
    some (stateErrorWith pfx "StatefulAlreadyRunningError" (STATEFUL_ALREADY_RUNNING pfx))
  else none

/-- Stateful.require_not_closed: fails when CLOSED. -/
def require_not_closed_chk (s : Stateful) (pfx : String) : Option GenericException :=
  if s.CLOSED then
    some (stateErrorWith pfx "StatefulAlreadyClosedError" (STATEFUL_ALREADY_CLOSED pfx))
  else none

/-- Stateful.open_method: decorator stack set_opened, require_not_opened around
the body.  Checks run outermost first: require_not_opened, then the body, and
OPENED is set only after the body returns without failure. -/
def open_method {α : Type} (s : Stateful) (pfx : String) (body : Except GenericException α) :
    Except GenericException (α × Stateful) :=
  match require_not_opened_chk s pfx with
  | some e => Except.error e
  | none =>
    match body with
    | Except.error e => Except.error e
    | Except.ok a => Except.ok (a, { s with OPENED := true })

/-- Stateful.start_method: decorator stack set_running, require_opened,
require_not_running, require_not_closed applied bottom-up, so the check order
is require_opened, require_not_running, require_not_closed, then the body,
then RUNNING := true. -/
def start_method {α : Type} (s : Stateful) (pfx : String) (body : Except GenericException α) :
    Except GenericException (α × Stateful) :=
  match require_opened_chk s pfx with
  | some e => Except.error e
  | none =>
    match require_not_running_chk s pfx with
    | some e => Except.error e
    | none =>
      match require_not_closed_chk s pfx with
      | some e => Except.error e
      | none =>
        match body with
        | Except.error e => Except.error e
        | Except.ok a => Except.ok (a, { s with RUNNING := true })

/-- Stateful.stop_method: decorator stack set_not_running, require_opened,
require_running, require_not_closed applied bottom-up, so the check order is
require_opened, require_running, require_not_closed, then the body, then
RUNNING := false. -/
def stop_method {α : Type} (s : Stateful) (pfx : String) (body : Except GenericException α) :
    Except GenericException (α × Stateful) :=
  match require_opened_chk s pfx with
  | some e => Except.error e
  | none =>
    match require_running_chk s pfx with
    | some e => Except.error e
    | none =>
      match require_not_closed_chk s pfx with
      | some e => Except.error e
      | none =>
        match body with
        | Except.error e => Except.error e
        | Except.ok a => Except.ok (a, { s with RUNNING := false })

/-- Stateful.close_method: decorator stack set_closed, require_opened,
require_not_closed, require_not_running applied bottom-up, so the check order
is require_opened, require_not_closed, require_not_running, then the body,
then CLOSED := true. -/
def close_method {α : Type} (s : Stateful) (pfx : String) (body : Except GenericException α) :
    Except GenericException (α × Stateful) :=
  match require_opened_chk s pfx with
  | some e => Except.error e
  | none =>
    match require_not_closed_chk s pfx with
    | some e => Except.error e
    | none =>
      match require_not_running_chk s pfx with
      | some e => Except.error e
      | none =>
        match body with
        | Except.error e => Except.error e
        | Except.ok a => Except.ok (a, { s with CLOSED := true })

/-! Composite lifecycle operations of worker components, kuix components and
workers (kuix/worker_components/base_worker_component.py,
kuix/kuix_components/base_kuix_component.py).  Each public method wraps the
user hook in try/except, re-raising the failure as
SomeCoreMethodCallError(message) + cause; the class of the wrapper differs per
layer (WorkerComponentCoreMethodCallError, KuixComponentCoreMethodCallError,
WorkerCoreMethodCallError) and is passed here as the string wrapKind. -/

/-- Outcome of a user hook (the overridable double-underscore method):
it either returns, or raises.  A raised non-generic exception is represented
by a GenericException with empty chain, matching what cast and dump produce. -/
inductive HookResult where
  | ok : HookResult
  | raises (e : GenericException) : HookResult
deriving DecidableEq

/-- The try/except around a user hook: a failure e is re-raised as
WrapKind(msg) + e. -/
def tryWrap (wrapKind msg : String) (hook : HookResult) : Except GenericException Unit :=
  match hook with
  | HookResult.ok => Except.ok ()
  | HookResult.raises e => Except.error (geAdd (GenericException.new wrapKind msg) e)

/-- The four composite lifecycle operations. -/
inductive LifecycleOp where
  | openOp | startOp | stopOp | closeOp
deriving DecidableEq

def COMPONENT_OPEN_ERROR (pfx : String) : String :=
  pfx ++ ": Error while opening, look at the initial exception for more details."

def COMPONENT_START_ERROR (pfx : String) : String :=
  pfx ++ ": Error while starting, look at the initial exception for more details."

def COMPONENT_STOP_ERROR (pfx : String) : String :=
  pfx ++ ": Error while stopping, look at the initial exception for more details."

def COMPONENT_CLOSE_ERROR (pfx : String) : String :=
  pfx ++ ": Error while closing, look at the initial exception for more details."

/-- The wrap message used by each composite operation. -/
def hookErrorMessage : LifecycleOp → String → String
  | LifecycleOp.openOp, pfx => COMPONENT_OPEN_ERROR pfx
  | LifecycleOp.startOp, pfx => COMPONENT_START_ERROR pfx
  | LifecycleOp.stopOp, pfx => COMPONENT_STOP_ERROR pfx
  | LifecycleOp.closeOp, pfx => COMPONENT_CLOSE_ERROR pfx

/-- A component lifecycle method: the decorated composite operation applied to
the try/except-wrapped user hook.  Returns the new flags on success; an error
means the Python object was left unmutated, since the set decorators assign
their flag only after the wrapped call has returned. -/
def componentOp (wrapKind : String) (op : LifecycleOp) (s : Stateful) (pfx : String)
    (hook : HookResult) : Except GenericException Stateful :=
  match op with
  | LifecycleOp.openOp =>
    match open_method s pfx (tryWrap wrapKind (COMPONENT_OPEN_ERROR pfx) hook) with
    | Except.error e => Except.error e
    | Except.ok (_, s2) => Except.ok s2
  | LifecycleOp.startOp =>
    match start_method s pfx (tryWrap wrapKind (COMPONENT_START_ERROR pfx) hook) with
    | Except.error e => Except.error e
    | Except.ok (_, s2) => Except.ok s2
  | LifecycleOp.stopOp =>
    match stop_method s pfx (tryWrap wrapKind (COMPONENT_STOP_ERROR pfx) hook) with
    | Except.error e => Except.error e
    | Except.ok (_, s2) => Except.ok s2
  | LifecycleOp.closeOp =>
    match close_method s pfx (tryWrap wrapKind (COMPONENT_CLOSE_ERROR pfx) hook) with
    | Except.error e => Except.error e
    | Except.ok (_, s2) => Except.ok s2

/-- The first failing guard of an operation, in the order the decorator stack
checks them; none when every guard passes. -/
def guardCheck (op : LifecycleOp) (s : Stateful) (pfx : String) : Option GenericException :=
  match op with
  | LifecycleOp.openOp => require_not_opened_chk s pfx
  | LifecycleOp.startOp =>
    match require_opened_chk s pfx with
    | some e => some e
    | none =>
      match require_not_running_chk s pfx with
      | some e => some e
      | none => require_not_closed_chk s pfx
  | LifecycleOp.stopOp =>
    match require_opened_chk s pfx with
    | some e => some e
    | none =>
      match require_running_chk s pfx with
      | some e => some e
      | none => require_not_closed_chk s pfx
  | LifecycleOp.closeOp =>
    match require_opened_chk s pfx with
    | some e => some e
    | none =>
      match require_not_closed_chk s pfx with
      | some e => some e
      | none => require_not_running_chk s pfx

/-- The flag assignment performed by the set decorator of each operation. -/
def flagApply : LifecycleOp → Stateful → Stateful
  | LifecycleOp.openOp, s => { s with OPENED := true }
  | LifecycleOp.startOp, s => { s with RUNNING := true }
  | LifecycleOp.stopOp, s => { s with RUNNING := false }
  | LifecycleOp.closeOp, s => { s with CLOSED := true }

/-- Runs a sequence of composite operations from a state; a failing call
leaves the flags as they were (the error path never assigns a flag). -/
def runTrace (wrapKind pfx : String) : Stateful → List (LifecycleOp × HookResult) → Stateful
  | s, [] => s
  | s, (op, hook) :: rest =>
    runTrace wrapKind pfx
      (match componentOp wrapKind op s pfx hook with
       | Except.ok s2 => s2
       | Except.error _ => s) rest

/-! Embedding of the SharedHub mailbox store (kuix/core/ipc.py). -/

/-- The universe of Python values carried through the hub.  Exceptions travel
as first-class values in response slots; everything else the claims need is
covered by ints, strings and None. -/
inductive PyVal where
  | noneV : PyVal
  | int (n : Int) : PyVal
  | str (s : String) : PyVal
  | exc (e : GenericException) : PyVal
deriving DecidableEq

abbrev Pid := String

/-- A pending request: calls[process_id] holds method, args, kwargs. -/
structure Request where
  method : String
  args : List PyVal
  kwargs : List (String × PyVal)
deriving DecidableEq

/-- responses[process_id] when a call is in flight: a fresh Semaphore(0) and a
response placeholder initialized to None (PyVal.noneV).  The semaphore field
counts the releases not yet consumed. -/
structure ResponseSlot where
  semaphore : Nat
  response : PyVal
deriving DecidableEq

/-- One queued event posting: the (args, kwargs) pair appended by trigger. -/
abbrev EventPost := List PyVal × List (String × PyVal)

/-- events[process_id]: the per-process dict event_name -> queued postings. -/
abbrev ProcessEvents := List (String × List EventPost)

/-- The SharedHub state.  The calls and responses dicts can bind a key to the
Python value None (the inner Option none) after a slot was drained, which is
distinct from the key being absent. -/
structure SharedHub where
  calls : List (Pid × Option Request)
  events : List (Pid × ProcessEvents)
  responses : List (Pid × Option ResponseSlot)
deriving DecidableEq

/-- SharedHub.__init__: three empty dicts. -/
def emptyHub : SharedHub := ⟨[], [], []⟩

/-- SharedHub.clear_process: returns unchanged unless the process is in both
the calls and the responses dict; then pops it from those two dicts.  The
events dict is not touched. -/
def clear_process (h : SharedHub) (p : Pid) : SharedHub :=
  if !dictContains h.calls p || !dictContains h.responses p then h
  else { h with calls := dictErase h.calls p, responses := dictErase h.responses p }

/-- First half of SharedHub.call, the critical section guarded by the global
semaphore: installs the response placeholder (fresh Semaphore(0), response
None) and writes the request into the calls slot. -/
def callInstall (h : SharedHub) (p : Pid) (req : Request) : SharedHub :=
  { h with
    responses := dictInsert h.responses p (some { semaphore := 0, response := PyVal.noneV }),
    calls := dictInsert h.calls p (some req) }

/-- Second half of SharedHub.call: the caller blocks on the slot semaphore,
then reads the response and resets the responses slot to the Python value
None.  Returns none when the caller would still be blocked (semaphore at 0)
or the slot is gone. -/
def callDrain (h : SharedHub) (p : Pid) : Option (PyVal × SharedHub) :=
  match dictLookup h.responses p with
  | some (some slot) =>
    if slot.semaphore > 0 then
      some (slot.response, { h with responses := dictInsert h.responses p none })
    else none
  | _ => none

/-- SharedHub.get_call: returns the pending request (possibly the Python
value None when already drained) and resets the calls slot to None; returns
None untouched when the process has no calls entry. -/
def get_call (h : SharedHub) (p : Pid) : Option Request × SharedHub :=
  match dictLookup h.calls p with
  | none => (none, h)
  | some c => (c, { h with calls := dictInsert h.calls p none })

/-- SharedHub.set_response: silently returns when the process has no
responses entry at all; when the entry holds the Python value None (a
previous call drained it), the item assignment on None raises a TypeError;
otherwise stores the value and releases the slot semaphore. -/
def set_response (h : SharedHub) (p : Pid) (resp : PyVal) : Except GenericException SharedHub :=
  match dictLookup h.responses p with
  | none => Except.ok h
  | some none =>
    Except.error (GenericException.new "TypeError" "NoneType object does not support item assignment")
  | some (some slot) =>
    Except.ok { h with
      responses := dictInsert h.responses p (some { semaphore := slot.semaphore + 1, response := resp }) }

/-- SharedHub.subscribe: inserts an empty per-process dict when the process is
new, then an empty queue when the event is new for that process. -/
def subscribe (h : SharedHub) (p : Pid) (e : String) : SharedHub :=
  let ev1 := if dictContains h.events p then h.events else dictInsert h.events p []
  let pm := (dictLookup ev1 p).getD []
  if dictContains pm e then { h with events := ev1 }
  else { h with events := dictInsert ev1 p (dictInsert pm e []) }

/-- SharedHub.unsubscribe: pops the event queue of the process, then pops the
whole process entry when it became empty.  Both pops are unguarded in the
source: a missing process or event raises a KeyError, embedded as none. -/
def unsubscribe (h : SharedHub) (p : Pid) (e : String) : Option SharedHub :=
  match dictLookup h.events p with
  | none => none
  | some pm =>
    if dictContains pm e then
      let pm2 := dictErase pm e
      if pm2.length = 0 then some { h with events := dictErase h.events p }
      else some { h with events := dictInsert h.events p pm2 }
    else none

/-- Helper of trigger: appends the posting to the queue of one process when
that process subscribed to the event, else leaves its dict alone. -/
def appendPost (pm : ProcessEvents) (e : String) (post : EventPost) : ProcessEvents :=
  match dictLookup pm e with
  | none => pm
  | some q => dictInsert pm e (q ++ [post])

/-- SharedHub.trigger: for every registered process, appends (args, kwargs) to
its queue for the event when it is subscribed. -/
def trigger (h : SharedHub) (e : String) (post : EventPost) : SharedHub :=
  { h with events := h.events.map (fun kv => (kv.1, appendPost kv.2 e post)) }

/-- The drain loop of SharedHub.get_events: res = [] then, while the queue is
non-empty, res.append(queue.pop()).  Python list.pop removes the LAST element,
so the result lists the queue in reverse order. -/
def drainPopAll (q : List EventPost) : List EventPost := q.reverse

/-- SharedHub.get_events: empties the queue of (p, e) and returns the popped
postings; returns an empty list and leaves the hub alone when the process or
the event is not registered. -/
def get_events (h : SharedHub) (p : Pid) (e : String) : List EventPost × SharedHub :=
  match dictLookup h.events p with
  | none => ([], h)
  | some pm =>
    match dictLookup pm e with
    | none => ([], h)
    | some q =>
      (drainPopAll q, { h with events := dictInsert h.events p (dictInsert pm e []) })

/-- The complete round trip of a blocking SharedHub.call answered by a remote
listener: the caller installs the slots, the remote drains the request with
get_call and answers with set_response, and the caller, released by the slot
semaphore, drains the response.  This is the only interleaving in which the
call completes: until set_response releases the slot semaphore the caller
stays blocked.  Returns none when the protocol would block or fail. -/
def completedCall (h : SharedHub) (p : Pid) (req : Request) (v : PyVal) :
    Option (PyVal × SharedHub) :=
  let h1 := callInstall h p req
  match get_call h1 p with
  | (none, _) => none
  | (some _, h2) =>
    match set_response h2 p v with
    | Except.error _ => none
    | Except.ok h3 => callDrain h3 p

/-- API._raw_remote_call, the test on the returned value: a value that is an
Exception instance is re-raised in the caller as-is, anything else is
returned. -/
def raiseIfException (v : PyVal) : Except GenericException PyVal :=
  match v with
  | PyVal.exc e => Except.error e
  | v => Except.ok v

/-- The forwarder installed by API._enable_remote for every public method:
response = shared_hub.call(process_id, func_name, args, kwargs), then the
response is re-raised when it is an Exception, else returned.  The value the
remote side produced is passed as remoteValue. -/
def rawRemoteCall (h : SharedHub) (p : Pid) (fn : String) (args : List PyVal)
    (kwargs : List (String × PyVal)) (remoteValue : PyVal) :
    Option (Except GenericException PyVal × SharedHub) :=
  match completedCall h p { method := fn, args := args, kwargs := kwargs } remoteValue with
  | none => none
  | some (resp, h2) => some (raiseIfException resp, h2)

/-! Embedding of the host process and its worker registry
(bkp/kuix/core/kx_process.py, KxProcess and KxProcessAPI) together with the
worker lifecycle methods used by kill_worker (bkp/kuix/workers/base_worker.py).
Threads are not modeled: worker.stop sets stop_flag and joins the worker
thread before triggering its event, which only matters here through the
stop_flag field.  Event triggering through the connector is recorded in an
emitted log. -/

/-- An event posting made through Connector.trigger: name and string args. -/
abbrev Emit := String × List String

/-- A worker component as owned by a worker: its lifecycle flags and the
behavior of the stop / close user hooks (the only ones kill_worker can
reach). -/
structure WorkerComponent where
  state : Stateful
  pfx : String
  stopHook : HookResult
  closeHook : HookResult
deriving DecidableEq

/-- BaseWorkerComponent.stop: stop_method around the wrapped __stop__ hook. -/
def workerComponentStop (c : WorkerComponent) : Except GenericException WorkerComponent :=
  match stop_method c.state c.pfx
      (tryWrap "WorkerComponentCoreMethodCallError" (COMPONENT_STOP_ERROR c.pfx) c.stopHook) with
  | Except.error e => Except.error e
  | Except.ok (_, s2) => Except.ok { c with state := s2 }

/-- BaseWorkerComponent.close: close_method around the wrapped __close__ hook. -/
def workerComponentClose (c : WorkerComponent) : Except GenericException WorkerComponent :=
  match close_method c.state c.pfx
      (tryWrap "WorkerComponentCoreMethodCallError" (COMPONENT_CLOSE_ERROR c.pfx) c.closeHook) with
  | Except.error e => Except.error e
  | Except.ok (_, s2) => Except.ok { c with state := s2 }

/-- A worker as stored in the host registry. -/
structure Worker where
  worker_identifier : String
  state : Stateful
  pfx : String
  stopHook : HookResult
  closeHook : HookResult
  components : List (String × WorkerComponent)
  stop_flag : Bool
deriving DecidableEq

def WORKER_STOP_ERROR (pfx : String) : String :=
  pfx ++ ": Error while stopping, look at the initial exception for more details."

def WORKER_CLOSE_ERROR (pfx : String) : String :=
  pfx ++ ": Error while closing, look at the initial exception for more details."

/-- The loop over self.components inside BaseWorker.stop: each component is
stopped in turn; a raising component aborts the loop, keeping the mutations
of the components already stopped. -/
def stopComponents :
    List (String × WorkerComponent) → Except GenericException Unit × List (String × WorkerComponent)
  | [] => (Except.ok (), [])
  | (cid, c) :: rest =>
    match workerComponentStop c with
    | Except.error e => (Except.error e, (cid, c) :: rest)
    | Except.ok c2 =>
      match stopComponents rest with
      | (r, rest2) => (r, (cid, c2) :: rest2)

/-- The loop over self.components inside BaseWorker.close. -/
def closeComponents :
    List (String × WorkerComponent) → Except GenericException Unit × List (String × WorkerComponent)
  | [] => (Except.ok (), [])
  | (cid, c) :: rest =>
    match workerComponentClose c with
    | Except.error e => (Except.error e, (cid, c) :: rest)
    | Except.ok c2 =>
      match closeComponents rest with
      | (r, rest2) => (r, (cid, c2) :: rest2)

/-- BaseWorker.stop: the stop_method decorator stack (require_opened,
require_running, require_not_closed, body, RUNNING := false) around a body
that runs __stop__ then stops each component inside one try/except whose
failure is re-raised as WorkerCoreMethodCallError + cause, then sets
stop_flag, joins the thread and triggers the worker_stopped event. -/
def workerStop (kxId : String) (w : Worker) :
    Except GenericException Unit × Worker × List Emit :=
  match require_opened_chk w.state w.pfx with
  | some e => (Except.error e, w, [])
  | none =>
  match require_running_chk w.state w.pfx with
  | some e => (Except.error e, w, [])
  | none =>
  match require_not_closed_chk w.state w.pfx with
  | some e => (Except.error e, w, [])
  | none =>
    match w.stopHook with
    | HookResult.raises e =>
      (Except.error (geAdd (GenericException.new "WorkerCoreMethodCallError" (WORKER_STOP_ERROR w.pfx)) e),
       w, [])
    | HookResult.ok =>
      match stopComponents w.components with
      | (Except.error e, comps2) =>
        (Except.error (geAdd (GenericException.new "WorkerCoreMethodCallError" (WORKER_STOP_ERROR w.pfx)) e),
         { w with components := comps2 }, [])
      | (Except.ok _, comps2) =>
        (Except.ok (),
         { w with components := comps2, stop_flag := true,
                  state := { w.state with RUNNING := false } },
         [("worker_stopped", [kxId, w.worker_identifier])])

/-- BaseWorker.close: the close_method decorator stack (require_opened,
require_not_closed, require_not_running, body, CLOSED := true) around a body
that runs __close__ then closes each component inside one try/except whose
failure is re-raised as WorkerCoreMethodCallError + cause, then triggers the
worker_closed event. -/
def workerClose (kxId : String) (w : Worker) :
    Except GenericException Unit × Worker × List Emit :=
  match require_opened_chk w.state w.pfx with
  | some e => (Except.error e, w, [])
  | none =>
  match require_not_closed_chk w.state w.pfx with
  | some e => (Except.error e, w, [])
  | none =>
  match require_not_running_chk w.state w.pfx with
  | some e => (Except.error e, w, [])
  | none =>
    match w.closeHook with
    | HookResult.raises e =>
      (Except.error (geAdd (GenericException.new "WorkerCoreMethodCallError" (WORKER_CLOSE_ERROR w.pfx)) e),
       w, [])
    | HookResult.ok =>
      match closeComponents w.components with
      | (Except.error e, comps2) =>
        (Except.error (geAdd (GenericException.new "WorkerCoreMethodCallError" (WORKER_CLOSE_ERROR w.pfx)) e),
         { w with components := comps2 }, [])
      | (Except.ok _, comps2) =>
        (Except.ok (),
         { w with components := comps2, state := { w.state with CLOSED := true } },
         [("worker_closed", [kxId, w.worker_identifier])])

/-- The host process state: its id, the worker registry and the log of events
triggered through its connector. -/
structure KxProcess where
  kx_id : String
  workers : List (String × Worker)
  emitted : List Emit
deriving DecidableEq

def WORKER_DOES_NOT_EXIST_ERROR (kxId wid : String) : String :=
  "KxProcess<" ++ kxId ++ ">: worker " ++ wid ++ " does not exist."

def WORKER_NOT_CLOSED_ERROR (kxId wid : String) : String :=
  "KxProcess<" ++ kxId ++ ">: worker " ++ wid ++ " is not closed."

def WORKER_IS_OPEN_CTX (kxId wid : String) : String :=
  "KxProcess<" ++ kxId ++ ">: This error occurred while checking if the worker " ++ wid ++ " is opened."

def WORKER_IS_RUNNING_CTX (kxId wid : String) : String :=
  "KxProcess<" ++ kxId ++ ">: This error occurred while checking if the worker " ++ wid ++ " is started."

def WORKER_STOP_ERROR_CTX (kxId wid : String) : String :=
  "KxProcess<" ++ kxId ++ ">: This error occurred while stopping the worker: " ++ wid

def WORKER_CLOSE_ERROR_CTX (kxId wid : String) : String :=
  "KxProcess<" ++ kxId ++ ">: This error occurred while closing the worker: " ++ wid

def WORKER_KILL_ERROR_CTX (kxId wid : String) : String :=
  "KxProcess<" ++ kxId ++ ">: This error occurred while killing the worker: " ++ wid

/-- KxProcess.get_worker: the registry lookup, raising UnknownWorkerError for
an unknown identifier. -/
def get_worker (kx : KxProcess) (wid : String) : Except GenericException Worker :=
  match dictLookup kx.workers wid with
  | none => Except.error (GenericException.new "UnknownWorkerError" (WORKER_DOES_NOT_EXIST_ERROR kx.kx_id wid))
  | some w => Except.ok w

/-- The Context context manager: a failure leaving the block gets one context
line appended and is re-raised; a success passes through. -/
def withCtx {α : Type} (c : String) : Except GenericException α → Except GenericException α
  | Except.error e => Except.error (e.add_ctx c)
  | Except.ok a => Except.ok a

/-- KxProcessAPI.is_worker_opened: get_worker then is_opened, under the
WORKER_IS_OPEN_CTX context. -/
def is_worker_opened (kx : KxProcess) (wid : String) : Except GenericException Bool :=
  withCtx (WORKER_IS_OPEN_CTX kx.kx_id wid)
    (match get_worker kx wid with
     | Except.error e => Except.error e
     | Except.ok w => Except.ok w.state.OPENED)

/-- KxProcessAPI.is_worker_running: get_worker then is_running, under the
WORKER_IS_RUNNING_CTX context. -/
def is_worker_running (kx : KxProcess) (wid : String) : Except GenericException Bool :=
  withCtx (WORKER_IS_RUNNING_CTX kx.kx_id wid)
    (match get_worker kx wid with
     | Except.error e => Except.error e
     | Except.ok w => Except.ok w.state.RUNNING)

/-- KxProcess.stop_worker: under the WORKER_STOP_ERROR_CTX context, resolve
the worker and call its stop method; the registry keeps whatever mutations
the call made even when it raised. -/
def stop_worker (kx : KxProcess) (wid : String) : Except GenericException Unit × KxProcess :=
  match get_worker kx wid with
  | Except.error e => (Except.error (e.add_ctx (WORKER_STOP_ERROR_CTX kx.kx_id wid)), kx)
  | Except.ok w =>
    match workerStop kx.kx_id w with
    | (Except.error e, w2, ems) =>
      (Except.error (e.add_ctx (WORKER_STOP_ERROR_CTX kx.kx_id wid)),
       { kx with workers := dictInsert kx.workers wid w2, emitted := kx.emitted ++ ems })
    | (Except.ok _, w2, ems) =>
      (Except.ok (), { kx with workers := dictInsert kx.workers wid w2, emitted := kx.emitted ++ ems })

/-- KxProcess.remove_worker: UnknownWorkerError for an unknown id,
WorkerStateError when the worker is opened and not yet closed, else deletes
the registry entry and triggers worker_removed. -/
def remove_worker (kx : KxProcess) (wid : String) : Except GenericException Unit × KxProcess :=
  match dictLookup kx.workers wid with
  | none =>
    (Except.error (GenericException.new "UnknownWorkerError" (WORKER_DOES_NOT_EXIST_ERROR kx.kx_id wid)), kx)
  | some w =>
    if w.state.OPENED && !w.state.CLOSED then
      (Except.error (GenericException.new "WorkerStateError" (WORKER_NOT_CLOSED_ERROR kx.kx_id wid)), kx)
    else
      (Except.ok (), { kx with workers := dictErase kx.workers wid,
                               emitted := kx.emitted ++ [("worker_removed", [kx.kx_id, wid])] })

/-- KxProcess.close_worker: under the WORKER_CLOSE_ERROR_CTX context, resolve
the worker, call its close method, then remove it from the registry. -/
def close_worker (kx : KxProcess) (wid : String) : Except GenericException Unit × KxProcess :=
  match get_worker kx wid with
  | Except.error e => (Except.error (e.add_ctx (WORKER_CLOSE_ERROR_CTX kx.kx_id wid)), kx)
  | Except.ok w =>
    match workerClose kx.kx_id w with
    | (Except.error e, w2, ems) =>
      (Except.error (e.add_ctx (WORKER_CLOSE_ERROR_CTX kx.kx_id wid)),
       { kx with workers := dictInsert kx.workers wid w2, emitted := kx.emitted ++ ems })
    | (Except.ok _, w2, ems) =>
      let kx2 := { kx with workers := dictInsert kx.workers wid w2, emitted := kx.emitted ++ ems }
      match remove_worker kx2 wid with
      | (Except.error e, kx3) => (Except.error (e.add_ctx (WORKER_CLOSE_ERROR_CTX kx.kx_id wid)), kx3)
      | (Except.ok _, kx3) => (Except.ok (), kx3)

/-- KxProcessAPI.kill_worker: under the WORKER_KILL_ERROR_CTX context,
if the worker is opened then stop it when running and close it, and in every
branch finally call remove_worker.  None of the inner calls is inside a
try/except: the first failure propagates out of kill_worker with the kill
context appended, leaving the registry with whatever mutations already
happened. -/
def kill_worker (kx : KxProcess) (wid : String) : Except GenericException Unit × KxProcess :=
  let inner : Except GenericException Unit × KxProcess :=
    match is_worker_opened kx wid with
    | Except.error e => (Except.error e, kx)
    | Except.ok opened =>
      if opened then
        match (match is_worker_running kx wid with
               | Except.error e => (Except.error e, kx)
               | Except.ok running =>
                 if running then stop_worker kx wid else (Except.ok (), kx)) with
        | (Except.error e, kx2) => (Except.error e, kx2)
        | (Except.ok _, kx2) =>
          match close_worker kx2 wid with
          | (Except.error e, kx3) => (Except.error e, kx3)
          | (Except.ok _, kx3) => remove_worker kx3 wid
      else
        remove_worker kx wid
  match inner with
  | (Except.error e, kx2) => (Except.error (e.add_ctx (WORKER_KILL_ERROR_CTX kx.kx_id wid)), kx2)
  | r => r

/-! Concrete sample states used by witnesses and counterexamples. -/

/-- A first event posting, args (1,). -/
def post1 : EventPost := ([PyVal.int 1], [])

/-- A second event posting, args (2,). -/
def post2 : EventPost := ([PyVal.int 2], [])

/-- A hub in which P1 already has an active subscription to E with an empty
queue. -/
def hubSubbed : SharedHub := ⟨[], [("P1", [("E", [])])], []⟩

/-- A hub state in which P1 has both mailbox slots and one queued event. -/
def hubBusy : SharedHub :=
  ⟨[("P1", some { method := "m", args := [], kwargs := [] })],
   [("P1", [("E", [post1])])],
   [("P1", some { semaphore := 0, response := PyVal.noneV })]⟩

/-- The hub just after a call on P1 completed: both slots drained to the
Python value None, the keys still present. -/
def hubDrained : SharedHub := ⟨[("P1", none)], [], [("P1", none)]⟩

/-- The Lookup-kind failure of the remote failure propagation scenario. -/
def lookupExc : GenericException := GenericException.new "UnknownComponentError" "no such component"

/-- The failure raised by an always-raising stop hook. -/
def boomExc : GenericException := GenericException.new "RuntimeError" "stop failed"

/-- A running worker whose stop hook always raises. -/
def wBoom : Worker :=
  { worker_identifier := "w1", state := stateRUNNING, pfx := "W",
    stopHook := HookResult.raises boomExc, closeHook := HookResult.ok,
    components := [], stop_flag := false }

/-- A host owning only wBoom. -/
def kxBoom : KxProcess := { kx_id := "P1", workers := [("w1", wBoom)], emitted := [] }

/-! Dictionary lemmas. -/

theorem dictLookup_insert_self {β : Type} (d : List (String × β)) (k : String) (v : β) :
    dictLookup (dictInsert d k v) k = some v := by
  induction d with
  | nil => simp [dictInsert, dictLookup]
  | cons kv rest ih =>
    obtain ⟨k1, v1⟩ := kv
    by_cases h : k1 = k <;> simp [dictInsert, dictLookup, h, ih]

theorem dictInsert_insert_self {β : Type} (d : List (String × β)) (k : String) (v w : β) :
    dictInsert (dictInsert d k v) k w = dictInsert d k w := by
  induction d with
  | nil => simp [dictInsert]
  | cons kv rest ih =>
    obtain ⟨k1, v1⟩ := kv
    by_cases h : k1 = k <;> simp [dictInsert, h, ih]

theorem dictInsert_lookup_self {β : Type} (d : List (String × β)) (k : String) (v : β)
    (h : dictLookup d k = some v) : dictInsert d k v = d := by
  induction d with
  | nil => simp [dictLookup] at h
  | cons kv rest ih =>
    obtain ⟨k1, v1⟩ := kv
    by_cases hk : k1 = k
    · simp [dictLookup, hk] at h
      simp [dictInsert, hk, h]
    · simp [dictLookup, hk] at h
      simp [dictInsert, hk, ih h]

theorem dictLookup_erase_self {β : Type} (d : List (String × β)) (k : String) :
    dictLookup (dictErase d k) k = none := by
  induction d with
  | nil => simp [dictErase, dictLookup]
  | cons kv rest ih =>
    obtain ⟨k1, v1⟩ := kv
    by_cases h : k1 = k <;> simp [dictErase, dictLookup, h, ih]

theorem dictErase_of_lookup_none {β : Type} (d : List (String × β)) (k : String)
    (h : dictLookup d k = none) : dictErase d k = d := by
  induction d with
  | nil => simp [dictErase]
  | cons kv rest ih =>
    obtain ⟨k1, v1⟩ := kv
    by_cases hk : k1 = k
    · simp [dictLookup, hk] at h
    · simp [dictLookup, hk] at h
      simp [dictErase, hk, ih h]

theorem dictErase_insert_of_lookup_none {β : Type} (d : List (String × β)) (k : String) (v : β)
    (h : dictLookup d k = none) : dictErase (dictInsert d k v) k = d := by
  induction d with
  | nil => simp [dictInsert, dictErase]
  | cons kv rest ih =>
    obtain ⟨k1, v1⟩ := kv
    by_cases hk : k1 = k
    · simp [dictLookup, hk] at h
    · simp [dictLookup, hk] at h
      simp [dictInsert, dictErase, hk, ih h]

theorem dictLookup_map_values {β γ : Type} (d : List (String × β)) (f : β → γ) (k : String) :
    dictLookup (d.map (fun kv => (kv.1, f kv.2))) k = (dictLookup d k).map f := by
  induction d with
  | nil => simp [dictLookup]
  | cons kv rest ih =>
    obtain ⟨k1, v1⟩ := kv
    by_cases h : k1 = k <;> simp [dictLookup, h, ih]

/-! Claim theorems. -/

/-- Claim C1 (amended): for every lifecycle object, stop in the RUNNING state
succeeds and sets the state to OPENED; stop in the OPENED state fails with the
NotRunning state error; and stop in the CLOSED state (whose flags, as reached
through close, have RUNNING false) ALSO fails with the NotRunning state error,
because the decorator stack checks require_running before require_not_closed. -/
theorem C1_stop_semantics (pfx : String) :
    (∀ a : Nat, stop_method stateRUNNING pfx (Except.ok a) = Except.ok (a, stateOPENED))
  ∧ (∀ b : Except GenericException Nat,
      stop_method stateOPENED pfx b =
        Except.error (stateErrorWith pfx "StatefulNotRunningError" (STATEFUL_NOT_RUNNING pfx)))
  ∧ (∀ b : Except GenericException Nat,
      stop_method stateCLOSED pfx b =
        Except.error (stateErrorWith pfx "StatefulNotRunningError" (STATEFUL_NOT_RUNNING pfx))) := by
  refine ⟨fun a => ?_, fun b => ?_, fun b => ?_⟩ <;>
    simp [stop_method, stateRUNNING, stateOPENED, stateCLOSED, require_opened_chk,
          require_running_chk, require_not_closed_chk]

/-- Claim C1 counterexample: at the concrete CLOSED state, stop fails with the
NotRunning state error and not with the Closed one the claim names. -/
theorem C1_stop_closed_counterexample :
    stop_method stateCLOSED "x" (Except.ok (0 : Nat)) =
      Except.error (stateErrorWith "x" "StatefulNotRunningError" (STATEFUL_NOT_RUNNING "x"))
  ∧ initialTypeOf (stop_method stateCLOSED "x" (Except.ok (0 : Nat)))
      ≠ some "StatefulAlreadyClosedError" := by
  constructor
  · rfl
  · decide

/-- The full request/response round trip of SharedHub.call, computed: the call
returns exactly the value given to set_response and leaves both slots of the
process bound to the Python value None. -/
theorem completedCall_spec (h : SharedHub) (p : Pid) (req : Request) (v : PyVal) :
    completedCall h p req v =
      some (v, { h with calls := dictInsert h.calls p none,
                        responses := dictInsert h.responses p none }) := by
  unfold completedCall callInstall get_call set_response callDrain
  simp [dictLookup_insert_self, dictInsert_insert_self]

/-- Claim C2: every completed hub.call(p, ...) returns the value passed to the
unique set_response(p, value) that answered it, and afterwards both the
request slot and the response slot of p hold no pending request or response
(each is bound to None). -/
theorem C2_call_correlation (h : SharedHub) (p : Pid) (req : Request) (v : PyVal) :
    ∃ h2, completedCall h p req v = some (v, h2)
      ∧ dictLookup h2.calls p = some none
      ∧ dictLookup h2.responses p = some none := by
  refine ⟨_, completedCall_spec h p req v, ?_, ?_⟩ <;> simp [dictLookup_insert_self]

/-- Characterization of a composite lifecycle method: the decorator chain
first runs the guards in their stack order, then the try/except-wrapped hook,
and only then assigns the state flag. -/
theorem componentOp_eq (wk : String) (op : LifecycleOp) (s : Stateful) (pfx : String)
    (hook : HookResult) :
    componentOp wk op s pfx hook =
      match guardCheck op s pfx with
      | some g => Except.error g
      | none =>
        match hook with
        | HookResult.ok => Except.ok (flagApply op s)
        | HookResult.raises e =>
          Except.error (geAdd (GenericException.new wk (hookErrorMessage op pfx)) e) := by
  obtain ⟨o, r, c⟩ := s
  cases op <;> cases hook <;> cases o <;> cases r <;> cases c <;>
    simp [componentOp, open_method, start_method, stop_method, close_method, guardCheck,
      require_not_opened_chk, require_opened_chk, require_running_chk,
      require_not_running_chk, require_not_closed_chk, tryWrap, flagApply, hookErrorMessage]

/-- Claim C3: for every composite lifecycle operation on a worker component or
kuix component, the state flag is assigned only after the user hook returned
without raising; a raising hook surfaces as the core-method-call error of the
layer (wrapKind) whose dumped chain and initial type preserve the original
cause, with the flags untouched (the error branch carries no new state); and
a failing guard short-circuits with the guard error for every hook behavior,
so the hook is not invoked and the state is unchanged. -/
theorem C3_lifecycle_hook_wrapping (wk : String) (op : LifecycleOp) (s : Stateful) (pfx : String) :
    (guardCheck op s pfx = none →
       componentOp wk op s pfx HookResult.ok = Except.ok (flagApply op s))
  ∧ (∀ e, guardCheck op s pfx = none →
       componentOp wk op s pfx (HookResult.raises e) =
         Except.error (geAdd (GenericException.new wk (hookErrorMessage op pfx)) e)
       ∧ (geAdd (GenericException.new wk (hookErrorMessage op pfx)) e).kind = wk
       ∧ (geAdd (GenericException.new wk (hookErrorMessage op pfx)) e).tracebacks = dumpException e
       ∧ (geAdd (GenericException.new wk (hookErrorMessage op pfx)) e).initial_type = some e.kind
       ∧ (geAdd (GenericException.new wk (hookErrorMessage op pfx)) e).initial_msg = some e.base_msg)
  ∧ (∀ g, guardCheck op s pfx = some g →
       ∀ hook, componentOp wk op s pfx hook = Except.error g) := by
  refine ⟨fun h0 => ?_, fun e h0 => ⟨?_, rfl, rfl, rfl, rfl⟩, fun g hg hook => ?_⟩
  · rw [componentOp_eq, h0]
  · rw [componentOp_eq, h0]
  · rw [componentOp_eq, hg]

/-- Claim C3 witness: the stop operation of a worker component in the RUNNING
state with a succeeding hook transitions to OPENED flags. -/
theorem C3_lifecycle_hook_wrapping_witness :
    componentOp "WorkerComponentCoreMethodCallError" LifecycleOp.stopOp stateRUNNING "w"
      HookResult.ok = Except.ok stateOPENED :=
  (C3_lifecycle_hook_wrapping "WorkerComponentCoreMethodCallError" LifecycleOp.stopOp
    stateRUNNING "w").1 (by decide)

/-- One step of a lifecycle trace never resets the OPENED or CLOSED flag:
every successful operation only sets OPENED, sets CLOSED or toggles RUNNING,
and every failing operation leaves the flags as they were. -/
theorem componentOp_flag_monotone (wk pfx : String) (op : LifecycleOp) (s : Stateful)
    (hook : HookResult) :
    (s.OPENED = true →
      (match componentOp wk op s pfx hook with
       | Except.ok s2 => s2
       | Except.error _ => s).OPENED = true)
  ∧ (s.CLOSED = true →
      (match componentOp wk op s pfx hook with
       | Except.ok s2 => s2
       | Except.error _ => s).CLOSED = true) := by
  obtain ⟨o, r, c⟩ := s
  cases op <;> cases hook <;> cases o <;> cases r <;> cases c <;>
    simp [componentOp, open_method, start_method, stop_method, close_method,
      require_not_opened_chk, require_opened_chk, require_running_chk,
      require_not_running_chk, require_not_closed_chk, tryWrap]

/-- Claim C10: across any sequence of composite lifecycle calls, succeeding or
failing, the OPENED and CLOSED flags are never reset once set; consequently a
successful close leaves is_opened true, and a subsequent open fails with the
AlreadyOpened state error rather than the Closed one. -/
theorem C10_flag_monotonicity (wk pfx : String) (s : Stateful)
    (tr : List (LifecycleOp × HookResult)) :
    ((s.OPENED = true → (runTrace wk pfx s tr).OPENED = true)
     ∧ (s.CLOSED = true → (runTrace wk pfx s tr).CLOSED = true))
  ∧ (∀ hook s2, componentOp wk LifecycleOp.closeOp s pfx hook = Except.ok s2 →
       s2.OPENED = true
       ∧ ∀ hook2, componentOp wk LifecycleOp.openOp s2 pfx hook2 =
           Except.error (stateErrorWith pfx "StatefulAlreadyOpenedError"
             (STATEFUL_ALREADY_OPENED pfx))) := by
  constructor
  · induction tr generalizing s with
    | nil => exact ⟨fun h => h, fun h => h⟩
    | cons oh rest ih =>
      obtain ⟨op, hook⟩ := oh
      constructor
      · intro hO
        have hstep := (componentOp_flag_monotone wk pfx op s hook).1 hO
        exact (ih _).1 hstep
      · intro hC
        have hstep := (componentOp_flag_monotone wk pfx op s hook).2 hC
        exact (ih _).2 hstep
  · intro hook s2 hok
    rw [componentOp_eq] at hok
    obtain ⟨o, r, c⟩ := s
    cases hook <;> cases o <;> cases r <;> cases c <;>
      simp_all [guardCheck, require_not_opened_chk, require_opened_chk,
        require_running_chk, require_not_running_chk, require_not_closed_chk, flagApply]
    subst hok
    refine ⟨rfl, fun hook2 => ?_⟩
    simp [componentOp, open_method, require_not_opened_chk]

/-- Claim C10 witness: from OPENED flags, a stop call (which fails as not
running) leaves OPENED set. -/
theorem C10_flag_monotonicity_witness :
    (runTrace "K" "w" stateOPENED [(LifecycleOp.stopOp, HookResult.ok)]).OPENED = true :=
  (C10_flag_monotonicity "K" "w" stateOPENED [(LifecycleOp.stopOp, HookResult.ok)]).1.1 rfl

/-- Claim C4 (amended): two triggers of the same event while a process stays
subscribed queue both tuples, and a subsequent get_events returns them in
REVERSE emission order, t2 before t1, on top of the reverse of whatever was
queued before: the drain loop pops from the end of the Python list. -/
theorem C4_event_drain_order (h : SharedHub) (p : Pid) (e : String) (pm : ProcessEvents)
    (q : List EventPost) (t1 t2 : EventPost)
    (hp : dictLookup h.events p = some pm) (hq : dictLookup pm e = some q) :
    (get_events (trigger (trigger h e t1) e t2) p e).1 = t2 :: t1 :: q.reverse := by
  have htr : ∀ (h2 : SharedHub) (t : EventPost) (pm2 : ProcessEvents),
      dictLookup h2.events p = some pm2 →
      dictLookup (trigger h2 e t).events p = some (appendPost pm2 e t) := by
    intro h2 t pm2 hpm
    show dictLookup (h2.events.map (fun kv => (kv.1, appendPost kv.2 e t))) p = _
    simpa [hpm] using dictLookup_map_values h2.events (fun v => appendPost v e t) p
  have h1 := htr h t1 pm hp
  have h2 := htr (trigger h e t1) t2 (appendPost pm e t1) h1
  have ha1 : appendPost pm e t1 = dictInsert pm e (q ++ [t1]) := by
    simp [appendPost, hq]
  have ha2 : appendPost (appendPost pm e t1) e t2 = dictInsert pm e (q ++ [t1] ++ [t2]) := by
    rw [ha1]
    simp [appendPost, dictLookup_insert_self, dictInsert_insert_self]
  rw [ha2] at h2
  unfold get_events
  rw [h2]
  simp [dictLookup_insert_self, drainPopAll]

/-- Claim C4 witness: with one posting already queued, triggering two more and
draining returns the three postings newest first. -/
theorem C4_event_drain_order_witness :
    (get_events (trigger (trigger hubBusy "E" post2) "E" ([PyVal.int 3], [])) "P1" "E").1 =
      [([PyVal.int 3], []), post2, post1] :=
  C4_event_drain_order hubBusy "P1" "E" [("E", [post1])] [post1] post2 ([PyVal.int 3], [])
    rfl rfl

/-- Claim C4 counterexample: on a freshly subscribed process, triggering t1
then t2 and draining returns t2 before t1, not the claimed emission order. -/
theorem C4_fifo_counterexample :
    (get_events (trigger (trigger hubSubbed "E" post1) "E" post2) "P1" "E").1 = [post2, post1]
  ∧ ([post2, post1] : List EventPost) ≠ [post1, post2] := by
  constructor
  · rfl
  · decide

/-- Claim C6 (amended): clear_process removes the request slot and the
response slot of a process that has both, but leaves every event queue of
that process in place. -/
theorem C6_clear_process_slots (h : SharedHub) (p : Pid)
    (hc : dictContains h.calls p = true) (hr : dictContains h.responses p = true) :
    (clear_process h p).events = h.events
  ∧ dictLookup (clear_process h p).calls p = none
  ∧ dictLookup (clear_process h p).responses p = none := by
  unfold clear_process
  simp [hc, hr, dictLookup_erase_self]

/-- Claim C6 witness: clearing P1 on a hub where P1 holds both slots and a
queued event empties both slots while the event map is untouched. -/
theorem C6_clear_process_slots_witness :
    (clear_process hubBusy "P1").events = hubBusy.events
  ∧ dictLookup (clear_process hubBusy "P1").calls "P1" = none
  ∧ dictLookup (clear_process hubBusy "P1").responses "P1" = none :=
  C6_clear_process_slots hubBusy "P1" (by decide) (by decide)

/-- Claim C6 counterexample: after clear_process, the queued event of the
process is still there and get_events still returns it, against the claimed
removal of all event queues. -/
theorem C6_clear_process_counterexample :
    (get_events (clear_process hubBusy "P1") "P1" "E").1 = [post1]
  ∧ ([post1] : List EventPost) ≠ [] := by
  constructor
  · rfl
  · decide

/-- Claim C7 (amended): set_response is a silent no-op exactly when the
process has no responses entry at all; the hub is returned unchanged. -/
theorem C7_set_response_noop (h : SharedHub) (p : Pid) (v : PyVal)
    (hnone : dictLookup h.responses p = none) :
    set_response h p v = Except.ok h := by
  unfold set_response
  rw [hnone]

/-- Claim C7 witness: a response for a process the hub never saw is dropped. -/
theorem C7_set_response_noop_witness :
    set_response emptyHub "P1" (PyVal.int 5) = Except.ok emptyHub :=
  C7_set_response_noop emptyHub "P1" (PyVal.int 5) rfl

/-- Claim C7 counterexample: immediately after a call on P1 completed, the
responses dict still binds P1 to the Python value None, and a late
set_response raises a TypeError instead of returning as a no-op. -/
theorem C7_late_response_counterexample :
    completedCall emptyHub "P1" { method := "m", args := [], kwargs := [] } (PyVal.int 7)
      = some (PyVal.int 7, hubDrained)
  ∧ set_response hubDrained "P1" (PyVal.int 5) =
      Except.error (GenericException.new "TypeError"
        "NoneType object does not support item assignment") := by
  constructor
  · rfl
  · rfl

/-- Claim C8 (amended): subscribe is idempotent, and subscribe followed by
unsubscribe restores the event map exactly when the pair had no active
subscription beforehand (and the entry of the process, when present, is
non-empty, as every reachable hub state guarantees); a pre-existing
subscription is destroyed by the pair instead. -/
theorem C8_subscribe_roundtrip (h : SharedHub) (p : Pid) (e : String)
    (hfresh : ∀ pm, dictLookup h.events p = some pm → pm ≠ [] ∧ dictContains pm e = false) :
    unsubscribe (subscribe h p e) p e = some h
  ∧ subscribe (subscribe h p e) p e = subscribe h p e := by
  cases hev : dictLookup h.events p with
  | none =>
    have hcont : dictContains h.events p = false := by
      simp [dictContains, hev]
    have hsub : subscribe h p e = { h with events := dictInsert h.events p [(e, [])] } := by
      unfold subscribe
      simp [hcont, hev, dictLookup_insert_self, dictInsert_insert_self, dictContains,
        dictLookup, dictInsert]
    constructor
    · rw [hsub]
      unfold unsubscribe
      simp [dictLookup_insert_self, dictContains, dictLookup, dictErase,
        dictErase_insert_of_lookup_none h.events p [(e, [])] hev]
    · rw [hsub]
      unfold subscribe
      simp [dictContains, dictLookup_insert_self, dictLookup]
  | some pm =>
    obtain ⟨hne, hnc⟩ := hfresh pm hev
    have hqe : dictLookup pm e = none := by
      simp [dictContains] at hnc
      exact Option.not_isSome_iff_eq_none.mp (by simp [hnc])
    have hcont : dictContains h.events p = true := by
      simp [dictContains, hev]
    have hsub : subscribe h p e = { h with events := dictInsert h.events p (dictInsert pm e []) } := by
      unfold subscribe
      simp [hcont, hev, dictContains, hqe]
    constructor
    · rw [hsub]
      unfold unsubscribe
      have hlen : (dictErase (dictInsert pm e []) e).length = pm.length := by
        rw [dictErase_insert_of_lookup_none pm e [] hqe]
      simp [dictLookup_insert_self, dictContains,
        dictErase_insert_of_lookup_none pm e [] hqe,
        List.length_eq_zero, hne, dictInsert_insert_self,
        dictInsert_lookup_self h.events p pm hev]
    · rw [hsub]
      unfold subscribe
      simp [dictContains, dictLookup_insert_self]

/-- Claim C8 witness: on a hub with no subscription for the pair, subscribe
then unsubscribe restores the hub exactly. -/
theorem C8_subscribe_roundtrip_witness :
    unsubscribe (subscribe emptyHub "P1" "E") "P1" "E" = some emptyHub :=
  (C8_subscribe_roundtrip emptyHub "P1" "E"
    (by intro pm hpm; simp [emptyHub, dictLookup] at hpm)).1

/-- Claim C8 counterexample: when (P1, E) already had an active subscription,
subscribe is a no-op and unsubscribe then removes the pre-existing
subscription, so the pair does NOT restore the prior event map. -/
theorem C8_subscribe_roundtrip_counterexample :
    unsubscribe (subscribe hubSubbed "P1" "E") "P1" "E" = some emptyHub
  ∧ emptyHub ≠ hubSubbed := by
  constructor
  · rfl
  · decide

/-- Claim C9 (amended): a remote-mode method call whose response carries a
failure re-raises that failure object itself in the caller, so kind, message,
dumped chain and context are all preserved unchanged; in particular no
context line naming the target process is added. -/
theorem C9_remote_failure_propagation (h : SharedHub) (p : Pid) (fn : String)
    (args : List PyVal) (kwargs : List (String × PyVal)) (e : GenericException) :
    ∃ h2, rawRemoteCall h p fn args kwargs (PyVal.exc e) = some (Except.error e, h2) := by
  refine ⟨{ h with calls := dictInsert h.calls p none,
                   responses := dictInsert h.responses p none }, ?_⟩
  unfold rawRemoteCall
  rw [completedCall_spec]
  rfl

/-- Claim C9 counterexample: a Lookup-kind failure coming back from P1 is
re-raised exactly as it was produced, with an empty context list — the
context line naming the target process that the claim requires is never
added. -/
theorem C9_context_line_counterexample :
    rawRemoteCall emptyHub "P1" "m" [] [] (PyVal.exc lookupExc) =
      some (Except.error lookupExc, ⟨[("P1", none)], [], [("P1", none)]⟩)
  ∧ lookupExc.ctx = [] := by
  constructor
  · rfl
  · rfl

/-- Claim C5 (amended): for a RUNNING worker whose stop hook always raises,
kill_worker propagates the failure, wrapped as WorkerCoreMethodCallError with
the stop and kill contexts appended: close is never invoked, the worker stays
in the host registry and no worker_removed event is emitted (the host state
is unchanged).  The only other escape for an unknown identifier is the
UnknownWorkerError. -/
theorem C5_kill_worker_stop_failure (kx : KxProcess) (wid : String) :
    (∀ w e, dictLookup kx.workers wid = some w → w.state = stateRUNNING →
       w.stopHook = HookResult.raises e →
       errKindOf (kill_worker kx wid).1 = some "WorkerCoreMethodCallError"
       ∧ (kill_worker kx wid).2 = kx)
  ∧ (dictLookup kx.workers wid = none →
       errKindOf (kill_worker kx wid).1 = some "UnknownWorkerError"
       ∧ (kill_worker kx wid).2 = kx) := by
  constructor
  · intro w e hw hrun hhook
    unfold kill_worker is_worker_opened is_worker_running stop_worker get_worker withCtx workerStop
    rw [hw]
    simp [hrun, hhook, stateRUNNING, require_opened_chk, require_running_chk,
      require_not_closed_chk, errKindOf, GenericException.add_ctx, geAdd,
      GenericException.new, dictInsert_lookup_self kx.workers wid w hw]
  · intro hw
    unfold kill_worker is_worker_opened get_worker withCtx
    rw [hw]
    simp [errKindOf, GenericException.add_ctx, GenericException.new]

/-- Claim C5 witness: the concrete host kxBoom with the always-raising stop
hook propagates the wrapped stop failure and keeps its state. -/
theorem C5_kill_worker_stop_failure_witness :
    errKindOf (kill_worker kxBoom "w1").1 = some "WorkerCoreMethodCallError"
  ∧ (kill_worker kxBoom "w1").2 = kxBoom :=
  (C5_kill_worker_stop_failure kxBoom "w1").1 wBoom boomExc rfl rfl rfl

/-- Claim C5 counterexample: on kxBoom the claim fails concretely: an
exception that is not UnknownWorkerError escapes kill_worker, and the host
still owns the worker with no worker_removed emitted. -/
theorem C5_kill_worker_counterexample :
    errKindOf (kill_worker kxBoom "w1").1 = some "WorkerCoreMethodCallError"
  ∧ (some "WorkerCoreMethodCallError" : Option String) ≠ some "UnknownWorkerError"
  ∧ dictLookup (kill_worker kxBoom "w1").2.workers "w1" = some wBoom
  ∧ (kill_worker kxBoom "w1").2.emitted = [] := by
  refine ⟨by decide, by decide, by decide, by decide⟩

end KuiX
